import Mathlib

/-!
Verification of the btcp-client repository (Browser Tool Calling Protocol).

Shallow embedding of the message codec (src/protocol.ts), the tool executor
(src/executor.ts), the broker (src/server.ts, WebSocket variant), the clients
(src/client.ts, SocketNativeClient) and the transports (WebSocketTransport,
HttpStreamingTransport).  JavaScript runtime values are modelled by the
inductive type JsValue; machine maps (JS Map) by association lists; JS Set by
duplicate-free insertion lists.  Event-driven stateful code is modelled as
explicit state-passing step functions that return the successor state together
with the list of externally visible actions (messages sent, events emitted).
-/

/-- Model of a JavaScript runtime value (the subset the protocol handles).
Numbers are modelled as integers: every numeric value the protocol produces or
inspects is integral, so float behaviour is never exercised. -/
inductive JsValue where
  | vStr (s : String)
  | vNum (n : Int)
  | vBool (b : Bool)
  | vNull
  | vUndefined
  | vArr (elems : List JsValue)
  | vObj (fields : List (String × JsValue))
deriving Repr

/-- Association-list lookup, modelling JS Map.get (and object field lookup on
JSON.parse output, whose keys are distinct because duplicates collapse). -/
def mapFind {κ α : Type} [DecidableEq κ] : List (κ × α) → κ → Option α
  | [], _ => none
  | (k, v) :: rest, key => if key = k then some v else mapFind rest key

/-- Association-list deletion, modelling JS Map.delete. -/
def mapDel {κ α : Type} [DecidableEq κ] : List (κ × α) → κ → List (κ × α)
  | [], _ => []
  | (k, v) :: rest, key =>
      if k = key then mapDel rest key else (k, v) :: mapDel rest key

/-- Association-list update, modelling JS Map.set: the key is (re)bound. -/
def mapSet {κ α : Type} [DecidableEq κ] (m : List (κ × α)) (k : κ) (v : α) :
    List (κ × α) :=
  (k, v) :: mapDel m k

/-- JS Set.add (no-op when the element is already present). -/
def setAdd {α : Type} [DecidableEq α] (l : List α) (a : α) : List α :=
  if a ∈ l then l else l ++ [a]

/-- JS Set.delete. -/
def setDel {α : Type} [DecidableEq α] : List α → α → List α
  | [], _ => []
  | x :: rest, a => if x = a then setDel rest a else x :: setDel rest a

@[simp]
theorem mapFind_nil {κ α : Type} [DecidableEq κ] (k : κ) :
    mapFind ([] : List (κ × α)) k = none := rfl

theorem mapFind_mapDel {κ α : Type} [DecidableEq κ]
    (m : List (κ × α)) (k key : κ) :
    mapFind (mapDel m k) key = if key = k then none else mapFind m key := by
  induction m with
  | nil => simp [mapDel]
  | cons p rest ih =>
    obtain ⟨k₁, v₁⟩ := p
    by_cases hk : k₁ = k
    · rw [show mapDel ((k₁, v₁) :: rest) k = mapDel rest k from by simp [mapDel, hk], ih]
      by_cases hkey : key = k
      · simp [hkey]
      · have hkey1 : ¬ key = k₁ := fun hkk => hkey (hkk.trans hk)
        simp [mapFind, hkey, hkey1]
    · rw [show mapDel ((k₁, v₁) :: rest) k = (k₁, v₁) :: mapDel rest k from by
        simp [mapDel, hk]]
      by_cases hkey : key = k₁
      · have hkk : ¬ key = k := fun hkk => hk (hkey.symm.trans hkk)
        simp [mapFind, hkey, hkk, hk]
      · simp [mapFind, hkey, ih]

theorem mapFind_mapSet {κ α : Type} [DecidableEq κ]
    (m : List (κ × α)) (k key : κ) (v : α) :
    mapFind (mapSet m k v) key = if key = k then some v else mapFind m key := by
  by_cases h : key = k
  · simp [mapSet, mapFind, h]
  · simp [mapSet, mapFind, h, mapFind_mapDel]

theorem setAdd_ne_nil {α : Type} [DecidableEq α] (l : List α) (a : α) :
    setAdd l a ≠ [] := by
  unfold setAdd
  by_cases h : a ∈ l
  · simp only [h, if_true]
    intro hnil
    rw [hnil] at h
    exact absurd h (List.not_mem_nil a)
  · simp [h]

/-! ## JSON.stringify (used by normalizeResult with indent 2) -/

/-- Four-hex-digit rendering used by the \u escape. -/
def hex4 (n : Nat) : String :=
  String.mk [Nat.digitChar (n / 4096 % 16), Nat.digitChar (n / 256 % 16),
    Nat.digitChar (n / 16 % 16), Nat.digitChar (n % 16)]

/-- JSON string escaping of one character, as JSON.stringify performs it. -/
def jsonEscapeChar (c : Char) : String :=
  if c = '"' then "\\\""
  else if c = '\\' then "\\\\"
  else if c = '\n' then "\\n"
  else if c = '\r' then "\\r"
  else if c = '\t' then "\\t"
  else if c = Char.ofNat 8 then "\\b"
  else if c = Char.ofNat 12 then "\\f"
  else if c.toNat < 32 then "\\u" ++ hex4 c.toNat
  else String.singleton c

/-- JSON string quoting. -/
def jsonQuote (s : String) : String :=
  "\"" ++ String.join (s.data.map jsonEscapeChar) ++ "\""

mutual

/-- JSON.stringify(v, null, 2) at accumulated indentation ind; none models the
undefined result JSON.stringify yields on undefined. -/
def stringifyVal (ind : String) : JsValue → Option String
  | .vUndefined => none
  | .vNull => some "null"
  | .vBool b => some (cond b "true" "false")
  | .vNum n => some (toString n)
  | .vStr s => some (jsonQuote s)
  | .vArr es =>
      some (match stringifyElems (ind ++ "  ") es with
        | [] => "[]"
        | parts =>
            "[\n" ++ ind ++ "  " ++
              String.intercalate (",\n" ++ ind ++ "  ") parts ++ "\n" ++ ind ++ "]")
  | .vObj fs =>
      some (match stringifyFields (ind ++ "  ") fs with
        | [] => "\x7b\x7d"
        | parts =>
            "\x7b\n" ++ ind ++ "  " ++
              String.intercalate (",\n" ++ ind ++ "  ") parts ++ "\n" ++ ind ++ "\x7d")

/-- Array elements: undefined serializes as null inside arrays. -/
def stringifyElems (ind : String) : List JsValue → List String
  | [] => []
  | e :: rest => ((stringifyVal ind e).getD "null") :: stringifyElems ind rest

/-- Object entries: undefined-valued fields are omitted. -/
def stringifyFields (ind : String) : List (String × JsValue) → List String
  | [] => []
  | (k, v) :: rest =>
      match stringifyVal ind v with
      | none => stringifyFields ind rest
      | some sv => (jsonQuote k ++ ": " ++ sv) :: stringifyFields ind rest

end

/-- JSON.stringify(v, null, 2) as called in ToolExecutor.normalizeResult.
The call sites only pass arrays and objects, for which the result is a string;
getD is never exercised there. -/
def jsonStringify2 (v : JsValue) : String := (stringifyVal "" v).getD "undefined"

/-! ## Message codec (src/protocol.ts) -/

/-- A broker/client generated message id.  generateMessageId returns the wire
string btcp-<Date.now()>-<counter> with a module-global counter incremented on
every call; the string determines the pair (time, counter) uniquely because
decimal digit runs contain no dash, so we model the id by the pair itself. -/
structure MessageId where
  time : Nat
  counter : Nat
deriving DecidableEq, Repr

/-- A JSON-RPC id value (string or number on the wire).  Ids produced by
generateMessageId are kept in their structured form gen. -/
inductive RpcId where
  | gen (m : MessageId)
  | str (s : String)
  | num (n : Int)
deriving DecidableEq, Repr

/-- generateMessageId: increments the global counter and builds the id from the
current time; returns the fresh id together with the new counter value. -/
def generateMessageId (now : Nat) (counter : Nat) : RpcId × Nat :=
  (RpcId.gen ⟨now, counter + 1⟩, counter + 1)

/-- createTextContent over an arbitrary runtime value: the TS signature says
string but the echo handler can pass any value through the unchecked cast, so
the field holds the raw value. -/
def createTextContentV (text : JsValue) : JsValue :=
  JsValue.vObj [("type", JsValue.vStr "text"), ("text", text)]

/-- createTextContent (protocol.ts line 89). -/
def createTextContent (text : String) : JsValue :=
  createTextContentV (JsValue.vStr text)

/-- createImageContent (protocol.ts line 93); the default mimeType at every
call site in executor.ts is image/png. -/
def createImageContent (data : String) (mimeType : String) : JsValue :=
  JsValue.vObj
    [("type", JsValue.vStr "image"), ("data", JsValue.vStr data),
      ("mimeType", JsValue.vStr mimeType)]

/-- JS member access v.k: throws (error) on null and undefined, yields the
field on objects, and undefined on every other value (primitives auto-box, and
none of them has the accessed protocol properties; arrays likewise). -/
def jsGet : JsValue → String → Except Unit JsValue
  | .vNull, _ => .error ()
  | .vUndefined, _ => .error ()
  | .vObj fs, k => .ok ((mapFind fs k).getD .vUndefined)
  | _, _ => .ok .vUndefined

/-- JS strict equality of an arbitrary value with a string literal. -/
def jsStrictEqStr (v : JsValue) (s : String) : Bool :=
  match v with
  | .vStr t => t = s
  | _ => false

/-- JS 'k in v': field-presence test.  The call sites (isRequest, isResponse,
isNotification) only ever receive objects produced by JSON.parse; on arrays it
is false for the protocol keys, and we return false for primitives (where JS
would throw) since that path is unreachable from parseMessage output. -/
def jsHasProp (v : JsValue) (k : String) : Bool :=
  match v with
  | .vObj fs => (mapFind fs k).isSome
  | _ => false

/-- parseMessage (protocol.ts lines 133-148).  Its input is the result of
JSON.parse on the wire bytes: none when JSON.parse throws (malformed JSON),
some v when it yields the value v.  The try/catch converts both a parse
failure and a throwing member access (null.jsonrpc) into null. -/
def parseMessage (parsed : Option JsValue) : Option JsValue :=
  match parsed with
  | none => none
  | some v =>
      match jsGet v "jsonrpc" with
      | .error _ => none
      | .ok f => if jsStrictEqStr f "2.0" then some v else none

/-- isRequest (protocol.ts line 153). -/
def isRequest (m : JsValue) : Bool :=
  jsHasProp m "method" && jsHasProp m "id"

/-- isResponse (protocol.ts line 162). -/
def isResponse (m : JsValue) : Bool :=
  !jsHasProp m "method" && jsHasProp m "id"

/-- isNotification (protocol.ts line 171). -/
def isNotification (m : JsValue) : Bool :=
  jsHasProp m "method" && !jsHasProp m "id"

/-! ## Tool executor (src/executor.ts) -/

/-- A registered tool handler: a function from the argument object to the
returned runtime value.  Handlers in the embedding are total; the only default
handler relevant to the claims (echo) never throws. -/
abbrev JsHandler := List (String × JsValue) → JsValue

/-- JS truthiness of the modelled values. -/
def jsTruthy : JsValue → Bool
  | .vStr s => s ≠ ""
  | .vNum n => n ≠ 0
  | .vBool b => b
  | .vNull => false
  | .vUndefined => false
  | .vArr _ => true
  | .vObj _ => true

/-- Argument lookup args.name: absent keys read as undefined. -/
def argGet (args : List (String × JsValue)) (k : String) : JsValue :=
  (mapFind args k).getD .vUndefined

namespace ToolExecutor

/-- The base64-ish test result.match(/^[A-Za-z0-9+/]+=*$/) from
normalizeResult: a non-empty run of [A-Za-z0-9+/] followed by only '='. -/
def matchesB64 (s : String) : Bool :=
  let isB64Char : Char → Bool := fun c => c.isAlphanum || c = '+' || c = '/'
  let body := s.data.takeWhile isB64Char
  let rest := s.data.dropWhile isB64Char
  (!body.isEmpty) && rest.all (fun c => c = '=')

/-- normalizeResult (executor.ts lines 109-132).  Returns none exactly when
the JS code would throw: the 'type' in result[0] test with result[0] === null
(typeof null is 'object', and the in operator throws on null). -/
def normalizeResult : JsValue → Option (List JsValue)
  | .vArr [] =>
      -- length > 0 is false: stringify branch
      some [createTextContent (jsonStringify2 (.vArr []))]
  | .vArr (h :: t) =>
      match h with
      | .vNull => none
      | .vObj fs =>
          if (mapFind fs "type").isSome then some (JsValue.vObj fs :: t)
          else some [createTextContent (jsonStringify2 (.vArr (JsValue.vObj fs :: t)))]
      | _ =>
          -- head is a primitive (typeof not 'object') or an array
          -- ('type' in someArray is false): stringify branch
          some [createTextContent (jsonStringify2 (.vArr (h :: t)))]
  | .vStr s =>
      some (if s.startsWith "data:image/" || matchesB64 s then
        [createImageContent s "image/png"]
      else [createTextContent s])
  | .vObj fs => some [createTextContent (jsonStringify2 (.vObj fs))]
  | .vNull => some [createTextContent "null"]
  | .vUndefined => some [createTextContent "undefined"]
  | .vNum n => some [createTextContent (toString n)]
  | .vBool b => some [createTextContent (cond b "true" "false")]

/-- The default echo handler (executor.ts lines 139-141):
createTextContent(args.message as string || 'No message provided'). -/
def echoHandler : JsHandler := fun args =>
  let m := argGet args "message"
  createTextContentV (if jsTruthy m then m else JsValue.vStr "No message provided")

/-- The handler table after registerDefaultHandlers, restricted to echo.  The
other default handler (evaluate) delegates to JS eval, which has no shallow
embedding; no claim depends on it. -/
def defaultHandlers : String → Option JsHandler := fun name =>
  if name = "echo" then some echoHandler else none

/-- execute (executor.ts lines 85-104): resolve the handler (typed not-found
error when absent), run it, normalize; a throw inside normalization is caught
and re-raised as an execution error. -/
def execute (handlers : String → Option JsHandler) (name : String)
    (args : List (String × JsValue)) : Except String (List JsValue) :=
  match handlers name with
  | none => .error ("Tool not found: " ++ name)
  | some h =>
      match normalizeResult (h args) with
      | some content => .ok content
      | none => .error "Tool execution failed"

end ToolExecutor

/-! ## Claims C5, C8, C10 -/

/-- C5: the claim asserts that calling echo with message "hi" yields content
[(type text, text "hi")].  The code disagrees: the echo handler returns the
content object itself, and normalizeResult has no single-content-object case,
so the object falls into the typeof-object branch and is JSON-stringified
(indent 2).  This theorem evaluates the executor at the failing input: the
result is one text block whose text is the pretty-printed JSON of the content
object, which differs from "hi".  The code contradicts the evident intent of
its own echo tool (description: Echo a message back). -/
theorem C5_echo_normalizeResult_eval :
    ToolExecutor.execute ToolExecutor.defaultHandlers "echo"
        [("message", JsValue.vStr "hi")] =
      Except.ok [JsValue.vObj [("type", JsValue.vStr "text"),
        ("text", JsValue.vStr "\x7b\n  \"type\": \"text\",\n  \"text\": \"hi\"\n\x7d")]] ∧
    ("\x7b\n  \"type\": \"text\",\n  \"text\": \"hi\"\n\x7d" : String) ≠ "hi" := by
  constructor
  · rfl
  · decide

/-- C8 counterexample: parseMessage accepts inputs in which none of the three
message shapes holds.  The object with only a jsonrpc field is well-formed
JSON with the version marker, has no method and no id, so it is neither a
Request nor a Response nor a Notification, yet parseMessage returns it instead
of a decode failure. -/
theorem C8_parseMessage_counterexample :
    parseMessage (some (JsValue.vObj [("jsonrpc", JsValue.vStr "2.0")])) =
      some (JsValue.vObj [("jsonrpc", JsValue.vStr "2.0")]) ∧
    isRequest (JsValue.vObj [("jsonrpc", JsValue.vStr "2.0")]) = false ∧
    isResponse (JsValue.vObj [("jsonrpc", JsValue.vStr "2.0")]) = false ∧
    isNotification (JsValue.vObj [("jsonrpc", JsValue.vStr "2.0")]) = false :=
  ⟨rfl, rfl, rfl, rfl⟩

/-- C8 (amended): parseMessage validates only that the input is well-formed
JSON and that the jsonrpc field strictly equals "2.0"; the three shape tests
are performed one layer up by isRequest/isResponse/isNotification.  No
exception escapes: a JSON.parse throw and a throwing member access both yield
null (the function is total and the iff below characterizes every some
result). -/
theorem C8_parseMessage_amended :
    (∀ p v, parseMessage p = some v ↔
      (p = some v ∧ ∃ f, jsGet v "jsonrpc" = Except.ok f ∧ jsStrictEqStr f "2.0" = true)) ∧
    parseMessage none = none := by
  constructor
  · intro p v
    constructor
    · intro h
      unfold parseMessage at h
      split at h
      · exact absurd h (by simp)
      · split at h
        · exact absurd h (by simp)
        · rename_i f hg
          by_cases hf : jsStrictEqStr f "2.0" = true
          · rw [if_pos hf] at h
            injection h with hwv
            subst hwv
            exact ⟨rfl, f, hg, hf⟩
          · rw [if_neg hf] at h
            exact absurd h (by simp)
    · rintro ⟨rfl, f, hg, hf⟩
      simp [parseMessage, hg, hf]
  · rfl

/-- C8 witness: the amended characterization applied at a concrete request. -/
theorem C8_parseMessage_amended_witness :
    parseMessage (some (JsValue.vObj [("jsonrpc", JsValue.vStr "2.0"),
        ("id", JsValue.vNum 1), ("method", JsValue.vStr "ping")])) =
      some (JsValue.vObj [("jsonrpc", JsValue.vStr "2.0"),
        ("id", JsValue.vNum 1), ("method", JsValue.vStr "ping")]) :=
  (C8_parseMessage_amended.1 _ _).mpr ⟨rfl, JsValue.vStr "2.0", rfl, rfl⟩

/-- C10: a tool handler returning a plain string that starts with data:image/
or matches /^[A-Za-z0-9+/]+=*$/ (for example "hello") makes execute return a
single image content block with mimeType image/png; a string outside that set
is returned as a single text block carrying the string itself. -/
theorem C10_base64_image_classification
    (handlers : String → Option JsHandler) (name : String) (h : JsHandler)
    (args : List (String × JsValue)) (s : String)
    (hh : handlers name = some h) (hs : h args = JsValue.vStr s) :
    ((s.startsWith "data:image/" || ToolExecutor.matchesB64 s) = true →
      ToolExecutor.execute handlers name args =
        Except.ok [createImageContent s "image/png"]) ∧
    ((s.startsWith "data:image/" || ToolExecutor.matchesB64 s) = false →
      ToolExecutor.execute handlers name args =
        Except.ok [createTextContent s]) := by
  constructor
  · intro hcond
    simp [ToolExecutor.execute, hh, hs, ToolExecutor.normalizeResult, hcond]
  · intro hcond
    simp [ToolExecutor.execute, hh, hs, ToolExecutor.normalizeResult, hcond]

/-- C10 witness: a handler returning the plain word "hello" (all characters in
the base64 alphabet) is classified as a png image block, not text. -/
theorem C10_base64_image_classification_witness :
    ToolExecutor.execute
        (fun n => if n = "shot" then some (fun _ => JsValue.vStr "hello") else none)
        "shot" [] =
      Except.ok [createImageContent "hello" "image/png"] :=
  (C10_base64_image_classification
    (fun n => if n = "shot" then some (fun _ => JsValue.vStr "hello") else none)
    "shot" (fun _ => JsValue.vStr "hello") [] "hello" rfl rfl).1 (by decide)

/-! ## Client reconnection state machines (src/client.ts, SocketNativeClient) -/

/-- Tool definitions are opaque blobs to the reconnect logic and the broker;
only name/presence matters to the claims, so a definition is its blob. -/
abbrev BTCPToolDefinition := String

/-- Externally visible actions of the client state machines: events emitted to
subscribers, rejections delivered to pending-call resolvers, reconnect timers
armed, and requests issued to the server. -/
inductive ClientAction where
  | emitConnect
  | emitDisconnect (code : Int) (reason : String)
  | emitError (message : String)
  | rejectPending (id : RpcId) (message : String)
  | scheduleReconnect (delayMs : Nat)
  | sendRequest (method : String)
deriving DecidableEq, Repr

/-- True exactly on rejectPending actions. -/
def ClientAction.isReject : ClientAction → Bool
  | .rejectPending _ _ => true
  | _ => false

/-- True exactly on emitError actions. -/
def ClientAction.isError : ClientAction → Bool
  | .emitError _ => true
  | _ => false

/-- True exactly on scheduleReconnect actions. -/
def ClientAction.isSchedule : ClientAction → Bool
  | .scheduleReconnect _ => true
  | _ => false

/-- True exactly on emitDisconnect actions. -/
def ClientAction.isDisconnectEvt : ClientAction → Bool
  | .emitDisconnect _ _ => true
  | _ => false

namespace BTCPClient

/-- The mutable fields of BTCPClient that the disconnect/reconnect logic
reads or writes.  pendingRequests keeps the keys of the pending-request map
(the stored resolver closures are represented by the rejectPending actions the
machine emits). -/
structure State where
  autoReconnect : Bool
  reconnectDelay : Nat
  maxReconnectAttempts : Nat
  reconnectAttempts : Nat
  eventSourceOpen : Bool
  pendingRequests : List RpcId
  registeredTools : List BTCPToolDefinition
deriving DecidableEq, Repr

/-- handleDisconnect (client.ts lines 496-519): null the EventSource, emit
disconnect(0, Connection lost); stop unless autoReconnect; stop (log only)
when the attempt cap is reached; otherwise increment the attempt counter and
arm a reconnect timer with delay reconnectDelay * 2^(n-1). -/
def handleDisconnect (s : State) : State × List ClientAction :=
  if ¬ s.autoReconnect then
    ({ s with eventSourceOpen := false },
      [ClientAction.emitDisconnect 0 "Connection lost"])
  else if s.reconnectAttempts ≥ s.maxReconnectAttempts then
    ({ s with eventSourceOpen := false },
      [ClientAction.emitDisconnect 0 "Connection lost"])
  else
    ({ s with eventSourceOpen := false, reconnectAttempts := s.reconnectAttempts + 1 },
      [ClientAction.emitDisconnect 0 "Connection lost",
        ClientAction.scheduleReconnect (s.reconnectDelay * 2 ^ (s.reconnectAttempts + 1 - 1))])

/-- disconnect (client.ts lines 232-253): caller-initiated close; switches
autoReconnect off, closes the stream, rejects every pending request with the
connection error Client disconnected, clears the map, and emits
disconnect(1000, Client disconnected). -/
def disconnect (s : State) : State × List ClientAction :=
  ({ s with autoReconnect := false, eventSourceOpen := false, pendingRequests := [] },
    (s.pendingRequests.map (fun id => ClientAction.rejectPending id "Client disconnected")) ++
      [ClientAction.emitDisconnect 1000 "Client disconnected"])

/-- The reconnect timer callback in handleDisconnect (client.ts lines
514-518) is this.connect().catch(log): the promise chain contains no
continuation after a successful connect, so no action beyond the connection
itself is issued — in particular tools are not re-registered. -/
def afterReconnectSuccess (_s : State) : List ClientAction := []

end BTCPClient

namespace SocketNativeClient

/-- The mutable fields of SocketNativeClient read or written by the
disconnect/reconnect logic. -/
structure State where
  autoReconnect : Bool
  reconnectDelay : Nat
  maxReconnectAttempts : Nat
  reconnectAttempts : Nat
  wsOpen : Bool
  pingActive : Bool
  pendingRequests : List RpcId
  registeredTools : List BTCPToolDefinition
deriving DecidableEq, Repr

/-- handleDisconnect (part_007 lines 837-868): null the socket, stop the ping
interval, emit disconnect(code, reason); stop unless autoReconnect; stop (log
only) at the attempt cap; otherwise increment the attempt counter and arm the
reconnect timer. -/
def handleDisconnect (s : State) (code : Int) (reason : String) :
    State × List ClientAction :=
  if ¬ s.autoReconnect then
    ({ s with wsOpen := false, pingActive := false },
      [ClientAction.emitDisconnect code reason])
  else if s.reconnectAttempts ≥ s.maxReconnectAttempts then
    ({ s with wsOpen := false, pingActive := false },
      [ClientAction.emitDisconnect code reason])
  else
    ({ s with wsOpen := false, pingActive := false, reconnectAttempts := s.reconnectAttempts + 1 },
      [ClientAction.emitDisconnect code reason,
        ClientAction.scheduleReconnect (s.reconnectDelay * 2 ^ (s.reconnectAttempts + 1 - 1))])

/-- disconnect (part_007 lines 578-595): caller-initiated close; rejects and
clears all pending requests, then emits disconnect(1000, Client
disconnected). -/
def disconnect (s : State) : State × List ClientAction :=
  ({ s with autoReconnect := false, pingActive := false, wsOpen := false, pendingRequests := [] },
    (s.pendingRequests.map (fun id => ClientAction.rejectPending id "Client disconnected")) ++
      [ClientAction.emitDisconnect 1000 "Client disconnected"])

/-- The .then continuation of the reconnect timer callback (part_007 lines
856-863): after a successful connect, re-submit the tool registration when
the previously registered tool list is non-empty. -/
def afterReconnectSuccess (s : State) : List ClientAction :=
  if s.registeredTools.length > 0 then [ClientAction.sendRequest "tools/register"]
  else []

end SocketNativeClient

/-! ## Transports (part_005: WebSocketTransport, HttpStreamingTransport) -/

/-- Externally visible actions of the transport layer. -/
inductive TransportAction where
  | closeChannel (code : Int) (reason : String)
  | emitDisconnect (code : Int) (reason : String)
  | abortPending
deriving DecidableEq, Repr

/-- True exactly on emitDisconnect actions. -/
def TransportAction.isDisconnectEvt : TransportAction → Bool
  | .emitDisconnect _ _ => true
  | _ => false

namespace WebSocketTransport

/-- The fields of WebSocketTransport that disconnect touches. -/
structure State where
  wsOpen : Bool
  pingActive : Bool
deriving DecidableEq, Repr

/-- disconnect (part_005 lines 143-152): stop the ping interval, close and
null the socket when present, and emit disconnect(1000, Client disconnected)
unconditionally. -/
def disconnect (s : State) : State × List TransportAction :=
  (⟨false, false⟩,
    (if s.wsOpen then [TransportAction.closeChannel 1000 "Client disconnected"] else []) ++
      [TransportAction.emitDisconnect 1000 "Client disconnected"])

end WebSocketTransport

namespace HttpStreamingTransport

/-- The fields of HttpStreamingTransport that disconnect touches. -/
structure State where
  esOpen : Bool
  abortActive : Bool
deriving DecidableEq, Repr

/-- disconnect (part_005 lines 382-394): close and null the EventSource when
present, abort in-flight posts when an AbortController is present, and emit
disconnect(1000, Client disconnected) unconditionally. -/
def disconnect (s : State) : State × List TransportAction :=
  (⟨false, false⟩,
    (if s.esOpen then [TransportAction.closeChannel 1000 "Client disconnected"] else []) ++
      (if s.abortActive then [TransportAction.abortPending] else []) ++
      [TransportAction.emitDisconnect 1000 "Client disconnected"])

end HttpStreamingTransport

/-! ## Claims C4, C6, C7, C9 -/

/-- C4 counterexample: the claim says that whenever the transport becomes
disconnected — including an unexpected connection loss handled by
handleDisconnect — every pending call is rejected with a connection-lost error
and removed.  At a state with one pending call, the unexpected-loss path
emits only the disconnect event (and arms a reconnect timer): the pending map
is untouched and no rejection is delivered. -/
theorem C4_connectionloss_counterexample :
    BTCPClient.handleDisconnect ⟨true, 1000, 5, 0, true, [RpcId.num 1], []⟩ =
      (⟨true, 1000, 5, 1, false, [RpcId.num 1], []⟩,
        [ClientAction.emitDisconnect 0 "Connection lost",
          ClientAction.scheduleReconnect 1000]) ∧
    ([RpcId.num 1] : List RpcId) ≠ [] := by
  decide

/-- C4 (amended): only the caller-initiated disconnect() rejects (with the
Client disconnected connection error) and clears all pending calls; the
unexpected-loss path (handleDisconnect, in both BTCPClient and
SocketNativeClient) leaves the pending-request map exactly as it was and
issues no rejection, so such calls terminate only through their individual
request timeouts. -/
theorem C4_pending_rejection_amended :
    (∀ s : BTCPClient.State,
        (BTCPClient.handleDisconnect s).1.pendingRequests = s.pendingRequests ∧
        (BTCPClient.handleDisconnect s).2.filter ClientAction.isReject = []) ∧
    (∀ (s : SocketNativeClient.State) (code : Int) (reason : String),
        (SocketNativeClient.handleDisconnect s code reason).1.pendingRequests =
          s.pendingRequests ∧
        (SocketNativeClient.handleDisconnect s code reason).2.filter
          ClientAction.isReject = []) ∧
    (∀ s : BTCPClient.State,
        (BTCPClient.disconnect s).1.pendingRequests = [] ∧
        (BTCPClient.disconnect s).2 =
          (s.pendingRequests.map
            (fun id => ClientAction.rejectPending id "Client disconnected")) ++
            [ClientAction.emitDisconnect 1000 "Client disconnected"]) ∧
    (∀ s : SocketNativeClient.State,
        (SocketNativeClient.disconnect s).1.pendingRequests = [] ∧
        (SocketNativeClient.disconnect s).2 =
          (s.pendingRequests.map
            (fun id => ClientAction.rejectPending id "Client disconnected")) ++
            [ClientAction.emitDisconnect 1000 "Client disconnected"]) := by
  refine ⟨fun s => ⟨?_, ?_⟩, fun s code reason => ⟨?_, ?_⟩, fun s => ⟨rfl, rfl⟩,
    fun s => ⟨rfl, rfl⟩⟩
  · unfold BTCPClient.handleDisconnect
    split
    · rfl
    · split <;> rfl
  · unfold BTCPClient.handleDisconnect
    split
    · rfl
    · split <;> rfl
  · unfold SocketNativeClient.handleDisconnect
    split
    · rfl
    · split <;> rfl
  · unfold SocketNativeClient.handleDisconnect
    split
    · rfl
    · split <;> rfl

/-- C6 counterexample: the claim says that on reaching the reconnect-attempt
cap the client emits a fatal error event.  At the cap (3 of 3 attempts used,
autoReconnect on), handleDisconnect emits only the disconnect event: no error
event is surfaced and no further reconnect is scheduled. -/
theorem C6_gaveup_counterexample :
    BTCPClient.handleDisconnect ⟨true, 1000, 3, 3, true, [], []⟩ =
      (⟨true, 1000, 3, 3, false, [], []⟩,
        [ClientAction.emitDisconnect 0 "Connection lost"]) ∧
    ClientAction.isError (ClientAction.emitDisconnect 0 "Connection lost") = false := by
  decide

/-- C6 (amended): once reconnectAttempts has reached maxReconnectAttempts,
an unexpected disconnect emits only the disconnect event and schedules no
further reconnect attempt (the give-up branch merely logs); no error event is
emitted to subscribers, and the attempt counter stays put, so the state is
terminal for the reconnect logic.  Holds for both BTCPClient and
SocketNativeClient. -/
theorem C6_gaveup_amended :
    (∀ s : BTCPClient.State, s.autoReconnect = true →
      s.maxReconnectAttempts ≤ s.reconnectAttempts →
      BTCPClient.handleDisconnect s =
        ({ s with eventSourceOpen := false },
          [ClientAction.emitDisconnect 0 "Connection lost"])) ∧
    (∀ (s : SocketNativeClient.State) (code : Int) (reason : String),
      s.autoReconnect = true →
      s.maxReconnectAttempts ≤ s.reconnectAttempts →
      SocketNativeClient.handleDisconnect s code reason =
        ({ s with wsOpen := false, pingActive := false },
          [ClientAction.emitDisconnect code reason])) := by
  constructor
  · intro s h1 h2
    simp [BTCPClient.handleDisconnect, h1, h2]
  · intro s code reason h1 h2
    simp [SocketNativeClient.handleDisconnect, h1, h2]

/-- C6 witness: the amended statement applied at a SocketNativeClient state
sitting past its cap (2 allowed, 5 used). -/
theorem C6_gaveup_amended_witness :
    SocketNativeClient.handleDisconnect ⟨true, 500, 2, 5, true, true, [], []⟩ 0 "x" =
      (⟨true, 500, 2, 5, false, false, [], []⟩, [ClientAction.emitDisconnect 0 "x"]) :=
  C6_gaveup_amended.2 ⟨true, 500, 2, 5, true, true, [], []⟩ 0 "x" (by decide) (by decide)

/-- C7 counterexample: the claim says every client re-submits its previously
registered non-empty tool list after a successful automatic reconnect.
BTCPClient's reconnect callback is connect() with only a catch handler: with
tool echo registered, the post-reconnect continuation issues no action at all,
in particular no tools/register. -/
theorem C7_reregister_counterexample :
    BTCPClient.afterReconnectSuccess ⟨true, 1000, 5, 1, true, [], ["echo"]⟩ = [] ∧
    (["echo"] : List BTCPToolDefinition) ≠ [] := by
  decide

/-- C7 (amended): after a successful automatic reconnect, SocketNativeClient
re-submits the registration exactly when the previously registered tool list
is non-empty; BTCPClient never re-submits tool registrations on reconnect (its
reconnect callback only re-establishes the stream). -/
theorem C7_reregister_amended :
    (∀ s : SocketNativeClient.State, 0 < s.registeredTools.length →
        SocketNativeClient.afterReconnectSuccess s =
          [ClientAction.sendRequest "tools/register"]) ∧
    (∀ s : SocketNativeClient.State, s.registeredTools.length = 0 →
        SocketNativeClient.afterReconnectSuccess s = []) ∧
    (∀ s : BTCPClient.State, BTCPClient.afterReconnectSuccess s = []) := by
  refine ⟨fun s h => ?_, fun s h => ?_, fun s => rfl⟩
  · simp [SocketNativeClient.afterReconnectSuccess, h]
  · simp [SocketNativeClient.afterReconnectSuccess, h]

/-- C7 witness: the amended statement applied at a SocketNativeClient state
with one registered tool. -/
theorem C7_reregister_amended_witness :
    SocketNativeClient.afterReconnectSuccess ⟨true, 1000, 5, 0, true, true, [], ["echo"]⟩ =
      [ClientAction.sendRequest "tools/register"] :=
  C7_reregister_amended.1 ⟨true, 1000, 5, 0, true, true, [], ["echo"]⟩ (by decide)

/-- Number of disconnected events in a transport action list. -/
def countDisconnectEvents (l : List TransportAction) : Nat :=
  (l.filter TransportAction.isDisconnectEvt).length

/-- C9 counterexample: the claim says a second consecutive disconnect() emits
no second disconnected event.  Starting from a connected WebSocketTransport,
disconnect() emits one disconnected event, and calling it again on the
resulting (already closed) transport emits another: two events total. -/
theorem C9_double_disconnect_counterexample :
    WebSocketTransport.disconnect ⟨true, true⟩ =
      (⟨false, false⟩,
        [TransportAction.closeChannel 1000 "Client disconnected",
          TransportAction.emitDisconnect 1000 "Client disconnected"]) ∧
    WebSocketTransport.disconnect ⟨false, false⟩ =
      (⟨false, false⟩, [TransportAction.emitDisconnect 1000 "Client disconnected"]) ∧
    countDisconnectEvents ((WebSocketTransport.disconnect ⟨true, true⟩).2 ++
      (WebSocketTransport.disconnect (WebSocketTransport.disconnect ⟨true, true⟩).1).2) = 2 := by
  decide

/-- C9 (amended): disconnect() always succeeds locally and emits exactly one
disconnected event per invocation, unconditionally — so calling it twice
emits two events, not one.  Holds for WebSocketTransport,
HttpStreamingTransport, and the disconnect methods of both clients. -/
theorem C9_disconnect_amended :
    (∀ s : WebSocketTransport.State,
        countDisconnectEvents (WebSocketTransport.disconnect s).2 = 1) ∧
    (∀ s : HttpStreamingTransport.State,
        countDisconnectEvents (HttpStreamingTransport.disconnect s).2 = 1) ∧
    (∀ s : BTCPClient.State,
        ((BTCPClient.disconnect s).2.filter ClientAction.isDisconnectEvt).length = 1) ∧
    (∀ s : SocketNativeClient.State,
        ((SocketNativeClient.disconnect s).2.filter ClientAction.isDisconnectEvt).length = 1) := by
  have hmap : ∀ l : List RpcId,
      (l.map (fun id => ClientAction.rejectPending id "Client disconnected")).filter
        ClientAction.isDisconnectEvt = [] := by
    intro l
    induction l with
    | nil => rfl
    | cons x rest ih => simp [ClientAction.isDisconnectEvt, ih]
  refine ⟨fun s => ?_, fun s => ?_, fun s => ?_, fun s => ?_⟩
  · by_cases h : s.wsOpen <;>
      simp [WebSocketTransport.disconnect, countDisconnectEvents, h,
        TransportAction.isDisconnectEvt]
  · by_cases h1 : s.esOpen <;> by_cases h2 : s.abortActive <;>
      simp [HttpStreamingTransport.disconnect, countDisconnectEvents, h1, h2,
        TransportAction.isDisconnectEvt]
  · simp [BTCPClient.disconnect, List.filter_append, hmap, ClientAction.isDisconnectEvt]
  · simp [SocketNativeClient.disconnect, List.filter_append, hmap,
      ClientAction.isDisconnectEvt]

/-! ## Session broker (src/server.ts, WebSocket variant) -/

/-- A connection handle (the ws object identity in the TS code). -/
abbrev ConnId := Nat

/-- A Session record (server.ts lines 25-31). -/
structure Session where
  id : String
  browserClient : Option ConnId
  agentClients : List ConnId
  tools : List BTCPToolDefinition
  createdAt : Nat
deriving DecidableEq, Repr

/-- Per-connection bookkeeping (server.ts lines 33-37).  The declared TS type
of the role is the union browser|agent|unknown, but at runtime it holds
whatever string the hello message carried, so it is modelled as a string. -/
structure ClientInfo where
  type : String
  sessionId : Option String
deriving DecidableEq, Repr

/-- A JSON-RPC error object. -/
structure JsError where
  code : Int
  message : String
deriving DecidableEq, Repr

/-- A response body: result or error (never both at the call sites). -/
structure RespPayload where
  result : Option JsValue
  error : Option JsError
deriving Repr

/-- A message the broker puts on the wire: a response or a request
(notifications to clients are sent as createRequest calls in this server). -/
inductive SrvMsg where
  | resp (id : RpcId) (payload : RespPayload)
  | req (id : RpcId) (method : String) (params : JsValue)
deriving Repr

/-- createResponse (protocol.ts lines 41-58) with a result. -/
def createResponseMsg (id : RpcId) (result : JsValue) : SrvMsg :=
  SrvMsg.resp id ⟨some result, none⟩

/-- createErrorResponse (protocol.ts lines 63-70). -/
def createErrorResponseMsg (id : RpcId) (code : Int) (message : String) : SrvMsg :=
  SrvMsg.resp id ⟨none, some ⟨code, message⟩⟩

/-- The whole broker state (server.ts lines 41-48): the session registry, the
per-connection table, the forwarded-call map pendingResponses (forwardedId to
originating agent connection and original id), and the module-global
messageIdCounter that generateMessageId increments. -/
structure ServerState where
  sessions : List (String × Session)
  clients : List (ConnId × ClientInfo)
  pendingResponses : List (RpcId × (ConnId × RpcId))
  idCounter : Nat
deriving Repr

/-- Tool lists rendered into result payloads (definitions are opaque blobs). -/
def toolsJs (tools : List BTCPToolDefinition) : JsValue :=
  JsValue.vArr (tools.map JsValue.vStr)

namespace BTCPServer

/-- The session id a browser hello resolves to:
params.sessionId || `session-Date.now()` (the empty string is falsy). -/
def resolveSessionId (sessionId : Option String) (now : Nat) : String :=
  match sessionId with
  | none => "session-" ++ toString now
  | some t => if t = "" then "session-" ++ toString now else t

/-- One createRequest per listed connection (the notification fan-out loops in
handleToolsRegister and handleDisconnect); each call to createRequest bumps
the global counter, so ids are consecutive. -/
def notifyAgents (now counter : Nat) (method : String) (params : JsValue) :
    List ConnId → List (ConnId × SrvMsg)
  | [] => []
  | a :: rest =>
      (a, SrvMsg.req (RpcId.gen ⟨now, counter + 1⟩) method params) ::
        notifyAgents now (counter + 1) method params rest

/-- handleHello (server.ts lines 137-179).  The TS code reads the client from
the clients map with a non-null assertion; a message can only arrive for a
registered connection, so the missing-client case is a no-op here. -/
def handleHello (s : ServerState) (ws : ConnId) (reqId : RpcId)
    (clientType : String) (sessionId : Option String) (now : Nat) :
    ServerState × List (ConnId × SrvMsg) :=
  match mapFind s.clients ws with
  | none => (s, [])
  | some client =>
      if clientType = "browser" then
        match mapFind s.sessions (resolveSessionId sessionId now) with
        | none =>
            ({ s with
                clients := mapSet s.clients ws { client with type := clientType, sessionId := some (resolveSessionId sessionId now) },
                sessions := mapSet s.sessions (resolveSessionId sessionId now)
                  ⟨resolveSessionId sessionId now, some ws, [], [], now⟩ },
              [(ws, createResponseMsg reqId (JsValue.vObj
                [("sessionId", JsValue.vStr (resolveSessionId sessionId now)),
                  ("message", JsValue.vStr "Welcome to BTCP server")]))])
        | some sess =>
            ({ s with
                clients := mapSet s.clients ws { client with type := clientType, sessionId := some (resolveSessionId sessionId now) },
                sessions := mapSet s.sessions (resolveSessionId sessionId now)
                  { sess with browserClient := some ws } },
              [(ws, createResponseMsg reqId (JsValue.vObj
                [("sessionId", JsValue.vStr (resolveSessionId sessionId now)),
                  ("message", JsValue.vStr "Welcome to BTCP server")]))])
      else
        ({ s with clients := mapSet s.clients ws { client with type := clientType } },
          [(ws, createResponseMsg reqId (JsValue.vObj
            [("message", JsValue.vStr "Welcome to BTCP server (agent)"),
              ("availableSessions", JsValue.vArr (s.sessions.map (fun p => JsValue.vStr p.1)))]))])

/-- handleSessionJoin (server.ts lines 181-203). -/
def handleSessionJoin (s : ServerState) (ws : ConnId) (reqId : RpcId)
    (sid : String) : ServerState × List (ConnId × SrvMsg) :=
  match mapFind s.clients ws with
  | none => (s, [])
  | some client =>
      match mapFind s.sessions sid with
      | none =>
          (s, [(ws, createErrorResponseMsg reqId (-32602) ("Session not found: " ++ sid))])
      | some sess =>
          ({ s with
              clients := mapSet s.clients ws { client with sessionId := some sid },
              sessions := mapSet s.sessions sid
                { sess with agentClients := setAdd sess.agentClients ws } },
            [(ws, createResponseMsg reqId (JsValue.vObj
              [("sessionId", JsValue.vStr sid), ("tools", toolsJs sess.tools)]))])

/-- handleToolsRegister (server.ts lines 205-240): replace the session's tool
list, acknowledge, then fan out one tools/updated request per agent (each
fan-out createRequest bumps the id counter). -/
def handleToolsRegister (s : ServerState) (ws : ConnId) (reqId : RpcId)
    (tools : List BTCPToolDefinition) (now : Nat) :
    ServerState × List (ConnId × SrvMsg) :=
  match mapFind s.clients ws with
  | none => (s, [])
  | some client =>
      match client.sessionId with
      | none => (s, [(ws, createErrorResponseMsg reqId (-32600) "Not in a session")])
      | some sid =>
          match mapFind s.sessions sid with
          | none => (s, [(ws, createErrorResponseMsg reqId (-32600) "Session not found")])
          | some sess =>
              ({ s with
                  sessions := mapSet s.sessions sid { sess with tools := tools },
                  idCounter := s.idCounter + sess.agentClients.length },
                (ws, createResponseMsg reqId (JsValue.vObj
                  [("registered", JsValue.vNum tools.length)])) ::
                  notifyAgents now s.idCounter "tools/updated"
                    (JsValue.vObj [("tools", toolsJs tools)]) sess.agentClients)

/-- handleToolsList (server.ts lines 242-274); the browser branch is a no-op
comment in the source. -/
def handleToolsList (s : ServerState) (ws : ConnId) (reqId : RpcId) :
    ServerState × List (ConnId × SrvMsg) :=
  match mapFind s.clients ws with
  | none => (s, [])
  | some client =>
      if client.type = "agent" then
        match client.sessionId with
        | none =>
            (s, [(ws, createErrorResponseMsg reqId (-32600)
              "Not in a session. Use session/join first.")])
        | some sid =>
            match mapFind s.sessions sid with
            | none =>
                (s, [(ws, createErrorResponseMsg reqId (-32600)
                  "Browser client not connected")])
            | some sess =>
                match sess.browserClient with
                | none =>
                    (s, [(ws, createErrorResponseMsg reqId (-32600)
                      "Browser client not connected")])
                | some _ =>
                    (s, [(ws, createResponseMsg reqId (JsValue.vObj
                      [("tools", toolsJs sess.tools)]))])
      else (s, [])

/-- handleToolsCall (server.ts lines 276-318): after the role/session/provider
guards, generate a fresh broker id (createRequest bumps the counter), record
the mapping forwardedId to (agent ws, original id), and forward the call to
the browser client. -/
def handleToolsCall (s : ServerState) (ws : ConnId) (reqId : RpcId)
    (params : JsValue) (now : Nat) : ServerState × List (ConnId × SrvMsg) :=
  match mapFind s.clients ws with
  | none => (s, [])
  | some client =>
      if ¬ client.type = "agent" then
        (s, [(ws, createErrorResponseMsg reqId (-32600) "Only agents can call tools")])
      else
        match client.sessionId with
        | none =>
            (s, [(ws, createErrorResponseMsg reqId (-32600)
              "Not in a session. Use session/join first.")])
        | some sid =>
            match mapFind s.sessions sid with
            | none =>
                (s, [(ws, createErrorResponseMsg reqId (-32600)
                  "Browser client not connected")])
            | some sess =>
                match sess.browserClient with
                | none =>
                    (s, [(ws, createErrorResponseMsg reqId (-32600)
                      "Browser client not connected")])
                | some bws =>
                    ({ s with
                        pendingResponses := mapSet s.pendingResponses
                          (RpcId.gen ⟨now, s.idCounter + 1⟩) (ws, reqId),
                        idCounter := s.idCounter + 1 },
                      [(bws, SrvMsg.req (RpcId.gen ⟨now, s.idCounter + 1⟩)
                        "tools/call" params)])

/-- handleResponse (server.ts lines 320-331): a response whose id matches a
recorded forwarded call removes the mapping and is forwarded to the
originating agent with the id rewritten back to the original id; any other
response is dropped. -/
def handleResponse (s : ServerState) (_ws : ConnId) (respId : RpcId)
    (payload : RespPayload) : ServerState × List (ConnId × SrvMsg) :=
  match mapFind s.pendingResponses respId with
  | none => (s, [])
  | some (agentWs, originalId) =>
      ({ s with pendingResponses := mapDel s.pendingResponses respId },
        [(agentWs, SrvMsg.resp originalId payload)])

/-- handleDisconnect (server.ts lines 333-361): clear the provider slot or
remove the consumer, notify agents on a browser disconnect (one createRequest
per agent), evict the session when both member sets are empty, and drop the
connection record.  pendingResponses is not touched on any path. -/
def handleDisconnect (s : ServerState) (ws : ConnId) (now : Nat) :
    ServerState × List (ConnId × SrvMsg) :=
  match mapFind s.clients ws with
  | none => (s, [])
  | some client =>
      match client.sessionId with
      | none => ({ s with clients := mapDel s.clients ws }, [])
      | some sid =>
          match mapFind s.sessions sid with
          | none => ({ s with clients := mapDel s.clients ws }, [])
          | some sess =>
              if client.type = "browser" then
                if sess.agentClients = [] then
                  ({ s with
                      sessions := mapDel s.sessions sid,
                      clients := mapDel s.clients ws,
                      idCounter := s.idCounter + sess.agentClients.length },
                    notifyAgents now s.idCounter "session/browserDisconnected"
                      (JsValue.vObj []) sess.agentClients)
                else
                  ({ s with
                      sessions := mapSet s.sessions sid { sess with browserClient := none },
                      clients := mapDel s.clients ws,
                      idCounter := s.idCounter + sess.agentClients.length },
                    notifyAgents now s.idCounter "session/browserDisconnected"
                      (JsValue.vObj []) sess.agentClients)
              else
                if sess.browserClient = none ∧ setDel sess.agentClients ws = [] then
                  ({ s with
                      sessions := mapDel s.sessions sid,
                      clients := mapDel s.clients ws }, [])
                else
                  ({ s with
                      sessions := mapSet s.sessions sid
                        { sess with agentClients := setDel sess.agentClients ws },
                      clients := mapDel s.clients ws }, [])

end BTCPServer

/-- The events that drive the broker: a connection opening, each dispatched
message kind (server.ts handleMessage lines 80-135), and a connection
closing.  now is the value of Date.now() during the handler. -/
inductive SrvEvent where
  | connect (ws : ConnId)
  | hello (ws : ConnId) (reqId : RpcId) (clientType : String)
      (sessionId : Option String) (now : Nat)
  | sessionJoin (ws : ConnId) (reqId : RpcId) (sessionId : String)
  | toolsRegister (ws : ConnId) (reqId : RpcId)
      (tools : List BTCPToolDefinition) (now : Nat)
  | toolsList (ws : ConnId) (reqId : RpcId)
  | toolsCall (ws : ConnId) (reqId : RpcId) (params : JsValue) (now : Nat)
  | response (ws : ConnId) (id : RpcId) (payload : RespPayload)
  | ping (ws : ConnId) (reqId : RpcId)
  | unknownMethod (ws : ConnId) (reqId : RpcId) (method : String)
  | close (ws : ConnId) (now : Nat)

/-- True exactly on hello events. -/
def SrvEvent.isHello : SrvEvent → Bool
  | .hello _ _ _ _ _ => true
  | _ => false

/-- True exactly on close events. -/
def SrvEvent.isClose : SrvEvent → Bool
  | .close _ _ => true
  | _ => false

/-- True exactly on response events. -/
def SrvEvent.isResponse : SrvEvent → Bool
  | .response _ _ _ => true
  | _ => false

/-- One reactor step of the broker: dispatch as in handleMessage plus the
connection/close hooks of setupServer (server.ts lines 56-78). -/
def stepServer (s : ServerState) (e : SrvEvent) :
    ServerState × List (ConnId × SrvMsg) :=
  match e with
  | .connect ws => ({ s with clients := mapSet s.clients ws ⟨"unknown", none⟩ }, [])
  | .hello ws reqId t sid now => BTCPServer.handleHello s ws reqId t sid now
  | .sessionJoin ws reqId sid => BTCPServer.handleSessionJoin s ws reqId sid
  | .toolsRegister ws reqId tools now => BTCPServer.handleToolsRegister s ws reqId tools now
  | .toolsList ws reqId => BTCPServer.handleToolsList s ws reqId
  | .toolsCall ws reqId params now => BTCPServer.handleToolsCall s ws reqId params now
  | .response ws respId payload => BTCPServer.handleResponse s ws respId payload
  | .ping ws reqId =>
      (s, [(ws, createResponseMsg reqId (JsValue.vObj [("pong", JsValue.vBool true)]))])
  | .unknownMethod ws reqId m =>
      (s, [(ws, createErrorResponseMsg reqId (-32601) ("Method not found: " ++ m))])
  | .close ws now => BTCPServer.handleDisconnect s ws now

/-- The broker's state at process start: empty registry, no connections, no
in-flight forwarded calls, counter at zero. -/
def initialState : ServerState := ⟨[], [], [], 0⟩

/-- Run the broker over an event trace. -/
def runServer : ServerState → List SrvEvent → ServerState
  | s, [] => s
  | s, e :: rest => runServer (stepServer s e).1 rest

/-! ## Broker invariants -/

/-- Every session reachable in the registry has a provider or at least one
consumer (the field reading of the registry-eviction invariant). -/
def sessionsWF (l : List (String × Session)) : Prop :=
  ∀ sid sess, mapFind l sid = some sess →
    sess.browserClient ≠ none ∨ sess.agentClients ≠ []

/-- Every in-flight forwarded-call mapping is keyed by a broker-generated id
whose counter component is at most the current id counter. -/
def pendingWF (s : ServerState) : Prop :=
  ∀ k p, mapFind s.pendingResponses k = some p →
    ∃ t c, k = RpcId.gen ⟨t, c⟩ ∧ c ≤ s.idCounter

theorem handleToolsList_state (s : ServerState) (ws : ConnId) (reqId : RpcId) :
    (BTCPServer.handleToolsList s ws reqId).1 = s := by
  unfold BTCPServer.handleToolsList
  repeat' split
  all_goals rfl

theorem handleResponse_sessions (s : ServerState) (ws : ConnId) (respId : RpcId)
    (payload : RespPayload) :
    (BTCPServer.handleResponse s ws respId payload).1.sessions = s.sessions := by
  unfold BTCPServer.handleResponse
  repeat' split
  all_goals rfl

theorem handleToolsCall_sessions (s : ServerState) (ws : ConnId) (reqId : RpcId)
    (params : JsValue) (now : Nat) :
    (BTCPServer.handleToolsCall s ws reqId params now).1.sessions = s.sessions := by
  unfold BTCPServer.handleToolsCall
  repeat' split
  all_goals rfl

theorem handleHello_pending (s : ServerState) (ws : ConnId) (reqId : RpcId)
    (t : String) (sid : Option String) (now : Nat) :
    (BTCPServer.handleHello s ws reqId t sid now).1.pendingResponses =
      s.pendingResponses := by
  unfold BTCPServer.handleHello
  repeat' split
  all_goals rfl

theorem handleSessionJoin_pending (s : ServerState) (ws : ConnId) (reqId : RpcId)
    (sid : String) :
    (BTCPServer.handleSessionJoin s ws reqId sid).1.pendingResponses =
      s.pendingResponses := by
  unfold BTCPServer.handleSessionJoin
  repeat' split
  all_goals rfl

theorem handleToolsRegister_pending (s : ServerState) (ws : ConnId) (reqId : RpcId)
    (tools : List BTCPToolDefinition) (now : Nat) :
    (BTCPServer.handleToolsRegister s ws reqId tools now).1.pendingResponses =
      s.pendingResponses := by
  unfold BTCPServer.handleToolsRegister
  repeat' split
  all_goals rfl

theorem handleDisconnect_pending (s : ServerState) (ws : ConnId) (now : Nat) :
    (BTCPServer.handleDisconnect s ws now).1.pendingResponses =
      s.pendingResponses := by
  unfold BTCPServer.handleDisconnect
  repeat' split
  all_goals rfl

theorem stepServer_counter_mono (s : ServerState) (e : SrvEvent) :
    s.idCounter ≤ (stepServer s e).1.idCounter := by
  cases e with
  | connect ws => exact Nat.le_refl _
  | toolsList ws reqId => simp only [stepServer, handleToolsList_state, Nat.le_refl]
  | hello ws reqId t sid now =>
      simp only [stepServer]
      unfold BTCPServer.handleHello
      repeat' split
      all_goals simp
  | sessionJoin ws reqId sid =>
      simp only [stepServer]
      unfold BTCPServer.handleSessionJoin
      repeat' split
      all_goals simp
  | toolsRegister ws reqId tools now =>
      simp only [stepServer]
      unfold BTCPServer.handleToolsRegister
      repeat' split
      all_goals simp
  | toolsCall ws reqId params now =>
      simp only [stepServer]
      unfold BTCPServer.handleToolsCall
      repeat' split
      all_goals simp
  | response ws respId payload =>
      simp only [stepServer]
      unfold BTCPServer.handleResponse
      repeat' split
      all_goals simp
  | ping ws reqId => exact Nat.le_refl _
  | unknownMethod ws reqId m => exact Nat.le_refl _
  | close ws now =>
      simp only [stepServer]
      unfold BTCPServer.handleDisconnect
      repeat' split
      all_goals simp

theorem isSome_mapSet_found {κ α : Type} [DecidableEq κ]
    (l : List (κ × α)) (sid k : κ) (v v0 : α) (h0 : mapFind l sid = some v0) :
    (mapFind (mapSet l sid v) k).isSome = (mapFind l k).isSome := by
  rw [mapFind_mapSet]
  split
  · rename_i hk
    rw [hk, h0]
    rfl
  · rfl

theorem isSome_mapSet_mono {κ α : Type} [DecidableEq κ]
    (l : List (κ × α)) (sid k : κ) (v : α)
    (h : (mapFind l k).isSome = true) :
    (mapFind (mapSet l sid v) k).isSome = true := by
  rw [mapFind_mapSet]
  split
  · rfl
  · exact h

theorem isSome_mapDel_le {κ α : Type} [DecidableEq κ]
    (l : List (κ × α)) (sid k : κ)
    (h : (mapFind (mapDel l sid) k).isSome = true) :
    (mapFind l k).isSome = true := by
  rw [mapFind_mapDel] at h
  split at h
  · exact absurd h (by simp)
  · exact h

theorem handleHello_wf (s : ServerState) (ws : ConnId) (reqId : RpcId)
    (t : String) (sidOpt : Option String) (now : Nat)
    (hwf : sessionsWF s.sessions) :
    sessionsWF (BTCPServer.handleHello s ws reqId t sidOpt now).1.sessions := by
  unfold BTCPServer.handleHello
  split
  · exact hwf
  · split
    · split
      · intro sid sess h
        dsimp only at h
        rw [mapFind_mapSet] at h
        split at h
        · cases h
          exact Or.inl (by simp)
        · exact hwf _ _ h
      · intro sid sess h
        dsimp only at h
        rw [mapFind_mapSet] at h
        split at h
        · cases h
          exact Or.inl (by simp)
        · exact hwf _ _ h
    · exact hwf

theorem handleSessionJoin_wf (s : ServerState) (ws : ConnId) (reqId : RpcId)
    (sid0 : String) (hwf : sessionsWF s.sessions) :
    sessionsWF (BTCPServer.handleSessionJoin s ws reqId sid0).1.sessions := by
  unfold BTCPServer.handleSessionJoin
  split
  · exact hwf
  · split
    · exact hwf
    · intro sid sess h
      dsimp only at h
      rw [mapFind_mapSet] at h
      split at h
      · cases h
        exact Or.inr (setAdd_ne_nil _ _)
      · exact hwf _ _ h

theorem handleToolsRegister_wf (s : ServerState) (ws : ConnId) (reqId : RpcId)
    (tools : List BTCPToolDefinition) (now : Nat) (hwf : sessionsWF s.sessions) :
    sessionsWF (BTCPServer.handleToolsRegister s ws reqId tools now).1.sessions := by
  unfold BTCPServer.handleToolsRegister
  split
  · exact hwf
  · split
    · exact hwf
    · split
      · exact hwf
      · rename_i sess0 hfound
        intro sid sess h
        dsimp only at h
        rw [mapFind_mapSet] at h
        split at h
        · cases h
          rcases hwf _ _ hfound with hb | ha
          · exact Or.inl hb
          · exact Or.inr ha
        · exact hwf _ _ h

theorem handleDisconnect_wf (s : ServerState) (ws : ConnId) (now : Nat)
    (hwf : sessionsWF s.sessions) :
    sessionsWF (BTCPServer.handleDisconnect s ws now).1.sessions := by
  unfold BTCPServer.handleDisconnect
  split
  · exact hwf
  · split
    · exact hwf
    · split
      · exact hwf
      · rename_i sess0 hfound
        split
        · split
          · intro sid sess h
            dsimp only at h
            rw [mapFind_mapDel] at h
            split at h
            · exact absurd h (by simp)
            · exact hwf _ _ h
          · rename_i hagents
            intro sid sess h
            dsimp only at h
            rw [mapFind_mapSet] at h
            split at h
            · cases h
              exact Or.inr hagents
            · exact hwf _ _ h
        · split
          · intro sid sess h
            dsimp only at h
            rw [mapFind_mapDel] at h
            split at h
            · exact absurd h (by simp)
            · exact hwf _ _ h
          · rename_i hcond
            intro sid sess h
            dsimp only at h
            rw [mapFind_mapSet] at h
            split at h
            · cases h
              rcases not_and_or.mp hcond with hb | ha
              · exact Or.inl hb
              · exact Or.inr ha
            · exact hwf _ _ h

theorem stepServer_wf (s : ServerState) (e : SrvEvent)
    (hwf : sessionsWF s.sessions) : sessionsWF (stepServer s e).1.sessions := by
  cases e with
  | connect ws => exact hwf
  | hello ws reqId t sid now => exact handleHello_wf s ws reqId t sid now hwf
  | sessionJoin ws reqId sid => exact handleSessionJoin_wf s ws reqId sid hwf
  | toolsRegister ws reqId tools now =>
      exact handleToolsRegister_wf s ws reqId tools now hwf
  | toolsList ws reqId =>
      simp only [stepServer, handleToolsList_state]
      exact hwf
  | toolsCall ws reqId params now =>
      have h := handleToolsCall_sessions s ws reqId params now
      intro sid sess hfind
      rw [show (stepServer s (SrvEvent.toolsCall ws reqId params now)).1.sessions =
        s.sessions from h] at hfind
      exact hwf _ _ hfind
  | response ws respId payload =>
      have h := handleResponse_sessions s ws respId payload
      intro sid sess hfind
      rw [show (stepServer s (SrvEvent.response ws respId payload)).1.sessions =
        s.sessions from h] at hfind
      exact hwf _ _ hfind
  | ping ws reqId => exact hwf
  | unknownMethod ws reqId m => exact hwf
  | close ws now => exact handleDisconnect_wf s ws now hwf

theorem runServer_wf (s : ServerState) (evs : List SrvEvent)
    (hwf : sessionsWF s.sessions) : sessionsWF (runServer s evs).sessions := by
  induction evs generalizing s with
  | nil => exact hwf
  | cons e rest ih => exact ih (stepServer s e).1 (stepServer_wf s e hwf)

theorem stepServer_keys_other (s : ServerState) (e : SrvEvent)
    (hh : e.isHello = false) (hc : e.isClose = false) (k : String) :
    (mapFind (stepServer s e).1.sessions k).isSome =
      (mapFind s.sessions k).isSome := by
  cases e with
  | connect ws => rfl
  | hello ws reqId t sid now => simp [SrvEvent.isHello] at hh
  | close ws now => simp [SrvEvent.isClose] at hc
  | toolsList ws reqId => simp only [stepServer, handleToolsList_state]
  | toolsCall ws reqId params now => simp only [stepServer, handleToolsCall_sessions]
  | response ws respId payload => simp only [stepServer, handleResponse_sessions]
  | ping ws reqId => rfl
  | unknownMethod ws reqId m => rfl
  | sessionJoin ws reqId sid =>
      simp only [stepServer]
      unfold BTCPServer.handleSessionJoin
      split
      · rfl
      · split
        · rfl
        · rename_i sess0 hfound
          dsimp only
          exact isSome_mapSet_found _ _ _ _ _ hfound
  | toolsRegister ws reqId tools now =>
      simp only [stepServer]
      unfold BTCPServer.handleToolsRegister
      split
      · rfl
      · split
        · rfl
        · split
          · rfl
          · rename_i sess0 hfound
            dsimp only
            exact isSome_mapSet_found _ _ _ _ _ hfound

theorem stepServer_keys_hello (s : ServerState) (ws : ConnId) (reqId : RpcId)
    (t : String) (sidOpt : Option String) (now : Nat) (k : String)
    (h : (mapFind s.sessions k).isSome = true) :
    (mapFind (stepServer s (SrvEvent.hello ws reqId t sidOpt now)).1.sessions
      k).isSome = true := by
  simp only [stepServer]
  unfold BTCPServer.handleHello
  split
  · exact h
  · split
    · split
      · dsimp only
        exact isSome_mapSet_mono _ _ _ _ h
      · dsimp only
        exact isSome_mapSet_mono _ _ _ _ h
    · exact h

theorem stepServer_keys_hello_agent (s : ServerState) (ws : ConnId)
    (reqId : RpcId) (t : String) (sidOpt : Option String) (now : Nat)
    (ht : ¬ t = "browser") :
    (stepServer s (SrvEvent.hello ws reqId t sidOpt now)).1.sessions =
      s.sessions := by
  simp only [stepServer]
  unfold BTCPServer.handleHello
  split
  · rfl
  · rw [if_neg ht]

theorem stepServer_keys_close (s : ServerState) (ws : ConnId) (now : Nat)
    (k : String)
    (h : (mapFind (stepServer s (SrvEvent.close ws now)).1.sessions k).isSome = true) :
    (mapFind s.sessions k).isSome = true := by
  simp only [stepServer] at h
  unfold BTCPServer.handleDisconnect at h
  split at h
  · exact h
  · split at h
    · exact h
    · split at h
      · exact h
      · rename_i sess0 hfound
        split at h
        · split at h
          · dsimp only at h
            exact isSome_mapDel_le _ _ _ h
          · dsimp only at h
            rw [isSome_mapSet_found _ _ _ _ _ hfound] at h
            exact h
        · split at h
          · dsimp only at h
            exact isSome_mapDel_le _ _ _ h
          · dsimp only at h
            rw [isSome_mapSet_found _ _ _ _ _ hfound] at h
            exact h

/-- C2: at every reachable broker state, a session present in the registry has
a provider slot occupied or at least one consumer (the converse holds by
construction: an absent session has neither); and the registry's key set
changes only through connect and disconnect events — every dispatched message
other than hello and close leaves the key set pointwise unchanged, a hello
can only add keys (and a non-browser hello changes nothing), and a close can
only remove keys.  The broker has no timer touching the registry: the step
relation enumerates every handler the source installs. -/
theorem C2_registry_invariant :
    (∀ evs : List SrvEvent, sessionsWF (runServer initialState evs).sessions) ∧
    (∀ (s : ServerState) (e : SrvEvent), e.isHello = false → e.isClose = false →
      ∀ k, (mapFind (stepServer s e).1.sessions k).isSome =
        (mapFind s.sessions k).isSome) ∧
    (∀ (s : ServerState) (ws : ConnId) (reqId : RpcId) (t : String)
        (sidOpt : Option String) (now : Nat) (k : String),
      (mapFind s.sessions k).isSome = true →
      (mapFind (stepServer s (SrvEvent.hello ws reqId t sidOpt now)).1.sessions
        k).isSome = true) ∧
    (∀ (s : ServerState) (ws : ConnId) (reqId : RpcId) (t : String)
        (sidOpt : Option String) (now : Nat), ¬ t = "browser" →
      (stepServer s (SrvEvent.hello ws reqId t sidOpt now)).1.sessions =
        s.sessions) ∧
    (∀ (s : ServerState) (ws : ConnId) (now : Nat) (k : String),
      (mapFind (stepServer s (SrvEvent.close ws now)).1.sessions k).isSome = true →
      (mapFind s.sessions k).isSome = true) :=
  ⟨fun evs => runServer_wf initialState evs
      (fun _ _ h => Option.noConfusion h),
    stepServer_keys_other, stepServer_keys_hello, stepServer_keys_hello_agent,
    stepServer_keys_close⟩

/-- C2 witness: after a browser hello creates session s1, the invariant
applied to that reachable state yields that s1 has a provider or a consumer
(here: the provider slot holds connection 0). -/
theorem C2_registry_invariant_witness :
    Session.browserClient ⟨"s1", some 0, [], [], 100⟩ ≠ none ∨
      Session.agentClients ⟨"s1", some 0, [], [], 100⟩ ≠ [] :=
  C2_registry_invariant.1
    [SrvEvent.connect 0, SrvEvent.hello 0 (RpcId.num 0) "browser" (some "s1") 100]
    "s1" ⟨"s1", some 0, [], [], 100⟩ rfl

theorem pendingWF_mono (s s1 : ServerState)
    (hp : s1.pendingResponses = s.pendingResponses)
    (hc : s.idCounter ≤ s1.idCounter) (hwf : pendingWF s) : pendingWF s1 := by
  intro k p h
  rw [hp] at h
  obtain ⟨t, c, hk, hcle⟩ := hwf k p h
  exact ⟨t, c, hk, hcle.trans hc⟩

theorem handleToolsCall_pendingWF (s : ServerState) (ws : ConnId) (reqId : RpcId)
    (params : JsValue) (now : Nat) (hwf : pendingWF s) :
    pendingWF (BTCPServer.handleToolsCall s ws reqId params now).1 := by
  unfold BTCPServer.handleToolsCall
  split
  · exact hwf
  · split
    · exact hwf
    · split
      · exact hwf
      · split
        · exact hwf
        · split
          · exact hwf
          · intro k p h
            dsimp only at h
            rw [mapFind_mapSet] at h
            split at h
            · rename_i hk
              exact ⟨now, s.idCounter + 1, hk, Nat.le_refl _⟩
            · obtain ⟨t, c, hk, hc⟩ := hwf k p h
              exact ⟨t, c, hk, hc.trans (Nat.le_succ _)⟩

theorem handleResponse_pendingWF (s : ServerState) (ws : ConnId) (respId : RpcId)
    (payload : RespPayload) (hwf : pendingWF s) :
    pendingWF (BTCPServer.handleResponse s ws respId payload).1 := by
  unfold BTCPServer.handleResponse
  split
  · exact hwf
  · intro k p h
    dsimp only at h
    rw [mapFind_mapDel] at h
    split at h
    · exact absurd h (by simp)
    · exact hwf _ _ h

theorem stepServer_pendingWF (s : ServerState) (e : SrvEvent)
    (hwf : pendingWF s) : pendingWF (stepServer s e).1 := by
  cases e with
  | connect ws => exact hwf
  | hello ws reqId t sid now =>
      exact pendingWF_mono s _ (handleHello_pending s ws reqId t sid now)
        (stepServer_counter_mono s (SrvEvent.hello ws reqId t sid now)) hwf
  | sessionJoin ws reqId sid =>
      exact pendingWF_mono s _ (handleSessionJoin_pending s ws reqId sid)
        (stepServer_counter_mono s (SrvEvent.sessionJoin ws reqId sid)) hwf
  | toolsRegister ws reqId tools now =>
      exact pendingWF_mono s _ (handleToolsRegister_pending s ws reqId tools now)
        (stepServer_counter_mono s (SrvEvent.toolsRegister ws reqId tools now)) hwf
  | toolsList ws reqId =>
      simp only [stepServer, handleToolsList_state]
      exact hwf
  | toolsCall ws reqId params now =>
      exact handleToolsCall_pendingWF s ws reqId params now hwf
  | response ws respId payload =>
      exact handleResponse_pendingWF s ws respId payload hwf
  | ping ws reqId => exact hwf
  | unknownMethod ws reqId m => exact hwf
  | close ws now =>
      exact pendingWF_mono s _ (handleDisconnect_pending s ws now)
        (stepServer_counter_mono s (SrvEvent.close ws now)) hwf

theorem runServer_pendingWF (s : ServerState) (evs : List SrvEvent)
    (hwf : pendingWF s) : pendingWF (runServer s evs) := by
  induction evs generalizing s with
  | nil => exact hwf
  | cons e rest ih => exact ih (stepServer s e).1 (stepServer_pendingWF s e hwf)

/-- C1: per in-flight forwarded call the broker's id rewriting is bijective.
(i) Every reachable broker state satisfies pendingWF: mapping keys are
broker-generated ids with counter at most the global id counter.
(ii) At any state satisfying pendingWF, a tools/call that passes the guards
generates the id gen(now, counter+1), which is fresh (absent from the
mapping), records exactly the mapping forwardedId to (calling consumer,
original id), and forwards the call to the provider under the new id.
(iii) When a response bearing a recorded forwarded id arrives, the broker
deletes exactly that mapping and sends the stored consumer the response with
the id field rewritten back to the stored original id — never the
broker-internal id.  (iv) No other event removes a mapping: if a key present
before a step is gone after it, the step was the response event for that very
key. -/
theorem C1_id_rewrite_bijective :
    (∀ evs : List SrvEvent, pendingWF (runServer initialState evs)) ∧
    (∀ (s : ServerState) (ws : ConnId) (reqId : RpcId) (params : JsValue)
        (now : Nat) (client : ClientInfo) (sid : String) (sess : Session)
        (bws : ConnId),
      pendingWF s →
      mapFind s.clients ws = some client →
      client.type = "agent" →
      client.sessionId = some sid →
      mapFind s.sessions sid = some sess →
      sess.browserClient = some bws →
      mapFind s.pendingResponses (RpcId.gen ⟨now, s.idCounter + 1⟩) = none ∧
      stepServer s (SrvEvent.toolsCall ws reqId params now) =
        ({ s with
            pendingResponses := mapSet s.pendingResponses
              (RpcId.gen ⟨now, s.idCounter + 1⟩) (ws, reqId),
            idCounter := s.idCounter + 1 },
          [(bws, SrvMsg.req (RpcId.gen ⟨now, s.idCounter + 1⟩) "tools/call" params)])) ∧
    (∀ (s : ServerState) (ws : ConnId) (k : RpcId) (payload : RespPayload)
        (aws : ConnId) (orig : RpcId),
      mapFind s.pendingResponses k = some (aws, orig) →
      stepServer s (SrvEvent.response ws k payload) =
        ({ s with pendingResponses := mapDel s.pendingResponses k },
          [(aws, SrvMsg.resp orig payload)])) ∧
    (∀ (s : ServerState) (e : SrvEvent) (k : RpcId) (v : ConnId × RpcId),
      mapFind s.pendingResponses k = some v →
      mapFind (stepServer s e).1.pendingResponses k = none →
      ∃ ws payload, e = SrvEvent.response ws k payload) := by
  refine ⟨?_, ?_, ?_, ?_⟩
  · intro evs
    exact runServer_pendingWF initialState evs (fun _ _ h => Option.noConfusion h)
  · intro s ws reqId params now client sid sess bws hwf hclient htype hsid hsess hbws
    have hfresh : mapFind s.pendingResponses (RpcId.gen ⟨now, s.idCounter + 1⟩) = none := by
      match hfind : mapFind s.pendingResponses (RpcId.gen ⟨now, s.idCounter + 1⟩) with
      | none => rfl
      | some p =>
          obtain ⟨t, c, hk, hc⟩ := hwf _ _ hfind
          cases hk
          exact absurd hc (Nat.not_succ_le_self _)
    refine ⟨hfresh, ?_⟩
    simp only [stepServer]
    unfold BTCPServer.handleToolsCall
    simp only [hclient, htype, hsid, hsess, hbws, eq_self_iff_true, not_true,
      if_false]
  · intro s ws k payload aws orig hfind
    simp only [stepServer]
    unfold BTCPServer.handleResponse
    simp only [hfind]
  · intro s e k v hsome hnone
    cases e with
    | connect ws =>
        rw [show (stepServer s (SrvEvent.connect ws)).1.pendingResponses =
          s.pendingResponses from rfl, hsome] at hnone
        exact Option.noConfusion hnone
    | hello ws reqId t sid now =>
        rw [show (stepServer s (SrvEvent.hello ws reqId t sid now)).1.pendingResponses =
          s.pendingResponses from handleHello_pending s ws reqId t sid now, hsome] at hnone
        exact Option.noConfusion hnone
    | sessionJoin ws reqId sid =>
        rw [show (stepServer s (SrvEvent.sessionJoin ws reqId sid)).1.pendingResponses =
          s.pendingResponses from handleSessionJoin_pending s ws reqId sid, hsome] at hnone
        exact Option.noConfusion hnone
    | toolsRegister ws reqId tools now =>
        rw [show (stepServer s (SrvEvent.toolsRegister ws reqId tools now)).1.pendingResponses =
          s.pendingResponses from handleToolsRegister_pending s ws reqId tools now,
          hsome] at hnone
        exact Option.noConfusion hnone
    | toolsList ws reqId =>
        rw [show (stepServer s (SrvEvent.toolsList ws reqId)).1.pendingResponses =
          s.pendingResponses from congrArg ServerState.pendingResponses
            (handleToolsList_state s ws reqId), hsome] at hnone
        exact Option.noConfusion hnone
    | ping ws reqId =>
        rw [show (stepServer s (SrvEvent.ping ws reqId)).1.pendingResponses =
          s.pendingResponses from rfl, hsome] at hnone
        exact Option.noConfusion hnone
    | unknownMethod ws reqId m =>
        rw [show (stepServer s (SrvEvent.unknownMethod ws reqId m)).1.pendingResponses =
          s.pendingResponses from rfl, hsome] at hnone
        exact Option.noConfusion hnone
    | close ws now =>
        rw [show (stepServer s (SrvEvent.close ws now)).1.pendingResponses =
          s.pendingResponses from handleDisconnect_pending s ws now, hsome] at hnone
        exact Option.noConfusion hnone
    | toolsCall ws reqId params now =>
        simp only [stepServer] at hnone
        unfold BTCPServer.handleToolsCall at hnone
        split at hnone
        · rw [hsome] at hnone
          exact Option.noConfusion hnone
        · split at hnone
          · rw [hsome] at hnone
            exact Option.noConfusion hnone
          · split at hnone
            · rw [hsome] at hnone
              exact Option.noConfusion hnone
            · split at hnone
              · rw [hsome] at hnone
                exact Option.noConfusion hnone
              · split at hnone
                · rw [hsome] at hnone
                  exact Option.noConfusion hnone
                · dsimp only at hnone
                  rw [mapFind_mapSet] at hnone
                  split at hnone
                  · exact Option.noConfusion hnone
                  · rw [hsome] at hnone
                    exact Option.noConfusion hnone
    | response ws respId payload =>
        simp only [stepServer] at hnone
        unfold BTCPServer.handleResponse at hnone
        split at hnone
        · rw [hsome] at hnone
          exact Option.noConfusion hnone
        · dsimp only at hnone
          rw [mapFind_mapDel] at hnone
          split at hnone
          · rename_i hkk
            exact ⟨ws, payload, by rw [hkk]⟩
          · rw [hsome] at hnone
            exact Option.noConfusion hnone

/-- C1 witness: on the reachable state where browser 0 owns session s1 and
agent 1 has joined it (id counter 0), the freshness part of the theorem
yields that the id the next tools/call would generate is not yet mapped. -/
theorem C1_id_rewrite_bijective_witness :
    mapFind (runServer initialState
      [SrvEvent.connect 0,
        SrvEvent.hello 0 (RpcId.num 0) "browser" (some "s1") 100,
        SrvEvent.connect 1,
        SrvEvent.hello 1 (RpcId.num 1) "agent" none 101,
        SrvEvent.sessionJoin 1 (RpcId.num 2) "s1"]).pendingResponses
      (RpcId.gen ⟨102, 1⟩) = none :=
  (C1_id_rewrite_bijective.2.1
    (runServer initialState
      [SrvEvent.connect 0,
        SrvEvent.hello 0 (RpcId.num 0) "browser" (some "s1") 100,
        SrvEvent.connect 1,
        SrvEvent.hello 1 (RpcId.num 1) "agent" none 101,
        SrvEvent.sessionJoin 1 (RpcId.num 2) "s1"])
    1 (RpcId.num 3) (JsValue.vObj []) 102
    ⟨"agent", some "s1"⟩ "s1" ⟨"s1", some 0, [1], [], 100⟩ 0
    (C1_id_rewrite_bijective.1
      [SrvEvent.connect 0,
        SrvEvent.hello 0 (RpcId.num 0) "browser" (some "s1") 100,
        SrvEvent.connect 1,
        SrvEvent.hello 1 (RpcId.num 1) "agent" none 101,
        SrvEvent.sessionJoin 1 (RpcId.num 2) "s1"])
    rfl rfl rfl rfl rfl).1

theorem notifyAgents_mem (now c0 : Nat) (method : String) (params : JsValue)
    (l : List ConnId) (cm : ConnId × SrvMsg)
    (h : cm ∈ BTCPServer.notifyAgents now c0 method params l) :
    ∃ a id, cm = (a, SrvMsg.req id method params) := by
  induction l generalizing c0 with
  | nil => exact absurd h (List.not_mem_nil _)
  | cons x rest ih =>
      simp only [BTCPServer.notifyAgents] at h
      rcases List.mem_cons.mp h with h1 | h2
      · exact ⟨x, RpcId.gen ⟨now, c0 + 1⟩, h1⟩
      · exact ih (c0 + 1) h2

/-- C3 counterexample: on the reachable state where browser 0 owns session s1,
agent 1 has joined, and agent 1 has a forwarded tools/call in flight (mapping
gen(102,1) to (connection 1, original id 3)), the provider's disconnect
leaves the mapping in pendingResponses untouched and sends agent 1 only the
session/browserDisconnected request — no synthetic error response resolves
the outstanding call, contradicting the claim. -/
theorem C3_provider_disconnect_counterexample :
    mapFind (runServer initialState
      [SrvEvent.connect 0,
        SrvEvent.hello 0 (RpcId.num 0) "browser" (some "s1") 100,
        SrvEvent.connect 1,
        SrvEvent.hello 1 (RpcId.num 1) "agent" none 101,
        SrvEvent.sessionJoin 1 (RpcId.num 2) "s1",
        SrvEvent.toolsCall 1 (RpcId.num 3) (JsValue.vObj []) 102]).pendingResponses
      (RpcId.gen ⟨102, 1⟩) = some (1, RpcId.num 3) ∧
    (stepServer (runServer initialState
      [SrvEvent.connect 0,
        SrvEvent.hello 0 (RpcId.num 0) "browser" (some "s1") 100,
        SrvEvent.connect 1,
        SrvEvent.hello 1 (RpcId.num 1) "agent" none 101,
        SrvEvent.sessionJoin 1 (RpcId.num 2) "s1",
        SrvEvent.toolsCall 1 (RpcId.num 3) (JsValue.vObj []) 102])
      (SrvEvent.close 0 103)).1.pendingResponses =
      [(RpcId.gen ⟨102, 1⟩, (1, RpcId.num 3))] ∧
    (stepServer (runServer initialState
      [SrvEvent.connect 0,
        SrvEvent.hello 0 (RpcId.num 0) "browser" (some "s1") 100,
        SrvEvent.connect 1,
        SrvEvent.hello 1 (RpcId.num 1) "agent" none 101,
        SrvEvent.sessionJoin 1 (RpcId.num 2) "s1",
        SrvEvent.toolsCall 1 (RpcId.num 3) (JsValue.vObj []) 102])
      (SrvEvent.close 0 103)).2 =
      [(1, SrvMsg.req (RpcId.gen ⟨103, 2⟩) "session/browserDisconnected"
        (JsValue.vObj []))] :=
  ⟨rfl, rfl, rfl⟩

/-- C3 (amended): when the provider disconnects, the broker clears the
provider slot (or evicts the session when no consumers remain) and notifies
every consumer with a session/browserDisconnected request; but it does not
resolve outstanding forwarded-call mappings: pendingResponses is unchanged by
every close event, and nothing the close sends is a response — the consumer's
call ends only through its own 30s timeout. -/
theorem C3_provider_disconnect_amended :
    (∀ (s : ServerState) (ws : ConnId) (now : Nat),
      (stepServer s (SrvEvent.close ws now)).1.pendingResponses =
        s.pendingResponses) ∧
    (∀ (s : ServerState) (ws : ConnId) (now : Nat) (c : ConnId) (m : SrvMsg),
      (c, m) ∈ (stepServer s (SrvEvent.close ws now)).2 →
      ∃ id, m = SrvMsg.req id "session/browserDisconnected" (JsValue.vObj [])) ∧
    (∀ (s : ServerState) (ws : ConnId) (now : Nat) (client : ClientInfo)
        (sid : String) (sess : Session),
      mapFind s.clients ws = some client →
      client.sessionId = some sid →
      mapFind s.sessions sid = some sess →
      client.type = "browser" →
      (¬ sess.agentClients = [] →
        mapFind (stepServer s (SrvEvent.close ws now)).1.sessions sid =
          some { sess with browserClient := none }) ∧
      (sess.agentClients = [] →
        mapFind (stepServer s (SrvEvent.close ws now)).1.sessions sid = none) ∧
      (stepServer s (SrvEvent.close ws now)).2 =
        BTCPServer.notifyAgents now s.idCounter "session/browserDisconnected"
          (JsValue.vObj []) sess.agentClients) := by
  refine ⟨?_, ?_, ?_⟩
  · intro s ws now
    exact handleDisconnect_pending s ws now
  · intro s ws now c m hm
    simp only [stepServer] at hm
    unfold BTCPServer.handleDisconnect at hm
    split at hm
    · exact absurd hm (List.not_mem_nil _)
    · split at hm
      · exact absurd hm (List.not_mem_nil _)
      · split at hm
        · exact absurd hm (List.not_mem_nil _)
        · split at hm
          · split at hm
            · obtain ⟨a, id, hcm⟩ := notifyAgents_mem _ _ _ _ _ _ hm
              exact ⟨id, congrArg Prod.snd hcm⟩
            · obtain ⟨a, id, hcm⟩ := notifyAgents_mem _ _ _ _ _ _ hm
              exact ⟨id, congrArg Prod.snd hcm⟩
          · split at hm
            · exact absurd hm (List.not_mem_nil _)
            · exact absurd hm (List.not_mem_nil _)
  · intro s ws now client sid sess hclient hsid hsess htype
    simp only [stepServer]
    unfold BTCPServer.handleDisconnect
    simp only [hclient, hsid, hsess, htype, eq_self_iff_true, if_true]
    refine ⟨fun hne => ?_, fun he => ?_, ?_⟩
    · rw [if_neg hne]
      dsimp only
      rw [mapFind_mapSet]
      simp
    · rw [if_pos he]
      dsimp only
      rw [mapFind_mapDel]
      simp
    · by_cases hA : sess.agentClients = []
      · rw [if_pos hA]
      · rw [if_neg hA]

/-- C3 witness: the amended statement applied on the reachable mid-call state:
the provider's disconnect clears the slot of s1 (one consumer remains) and
sends exactly the browserDisconnected notifications. -/
theorem C3_provider_disconnect_amended_witness :
    (stepServer (runServer initialState
      [SrvEvent.connect 0,
        SrvEvent.hello 0 (RpcId.num 0) "browser" (some "s1") 100,
        SrvEvent.connect 1,
        SrvEvent.hello 1 (RpcId.num 1) "agent" none 101,
        SrvEvent.sessionJoin 1 (RpcId.num 2) "s1",
        SrvEvent.toolsCall 1 (RpcId.num 3) (JsValue.vObj []) 102])
      (SrvEvent.close 0 103)).2 =
      BTCPServer.notifyAgents 103 1 "session/browserDisconnected"
        (JsValue.vObj []) [1] :=
  ((C3_provider_disconnect_amended.2.2
    (runServer initialState
      [SrvEvent.connect 0,
        SrvEvent.hello 0 (RpcId.num 0) "browser" (some "s1") 100,
        SrvEvent.connect 1,
        SrvEvent.hello 1 (RpcId.num 1) "agent" none 101,
        SrvEvent.sessionJoin 1 (RpcId.num 2) "s1",
        SrvEvent.toolsCall 1 (RpcId.num 3) (JsValue.vObj []) 102])
    0 103 ⟨"browser", some "s1"⟩ "s1" ⟨"s1", some 0, [1], [], 100⟩
    rfl rfl rfl rfl).2.2)
